import Mathlib

/-!
# IoT Events detector model resource

A shallow embedding of `aws/resource_aws_iotevents_detector_model.go`: the four
lifecycle operations of the resource (create, read, update, delete) over an
explicit resource data value and an explicit remote client, followed by the
properties of the lifecycle that the operations have or do not have.

Conventions of the embedding.

* `*schema.ResourceData` is a value (`ResourceData`); an operation returns the
  resource data it leaves behind.
* The remote connection `meta.(*AWSClient).ioteventsconn` is a `Client σ`: four
  functions over a remote state `σ`.  Every call an operation makes is appended
  to `World.calls` together with what the client answered.
* A Go function that returns `error` yields `Outcome.returned err`; a failed
  type assertion yields `Outcome.panicked`.
* `d.Get` returns a value behind `interface{}` whose dynamic type is the one
  the schema declares for the attribute.
* `aws.String` takes the address of its argument; it is the identity here.
* `log.Printf` has no effect on the values modelled and is left out.
-/

namespace IotEventsDetectorModel

/-! ## Values held behind `interface{}` -/

/-- One element of a configured list (`[]interface{}`): a string, or a nested
block given by its attributes. -/
inductive Item where
  | str (s : String)
  | block (attrs : List (String × String))
  deriving DecidableEq, Repr

/-- The dynamic values found in the `definition` map: an absent key reads as
`nil`; the other constructors are `string`, `[]string` and `[]interface{}`. -/
inductive Value where
  | nil
  | str (s : String)
  | strs (xs : List String)
  | list (xs : List Item)
  deriving DecidableEq, Repr

/-- The assertion `v.(string)`; `none` stands for the run-time panic. -/
def Value.assertString : Value → Option String
  | .str s => some s
  | _ => none

/-- The assertion `v.([]interface{})`. -/
def Value.assertInterfaceList : Value → Option (List Item)
  | .list xs => some xs
  | _ => none

/-- The assertion `v.([]string)`. -/
def Value.assertStringList : Value → Option (List String)
  | .strs xs => some xs
  | _ => none

/-- Indexing a `map[string]interface{}`: the first binding of the key, `nil`
when there is none. -/
def mapIndex (m : List (String × Value)) (key : String) : Value :=
  match m.find? (fun kv => kv.1 == key) with
  | some kv => kv.2
  | none => Value.nil

/-- What `d.Get` returns for a block attribute, behind `interface{}`: the
`*schema.Set` of its blocks when the schema declares the attribute `TypeSet`,
or a `map[string]interface{}`. -/
inductive Attribute where
  | set (blocks : List (List (String × Value)))
  | map (entries : List (String × Value))
  deriving DecidableEq, Repr

/-- The assertion `v.(map[string]interface{})`; `none` stands for the run-time
panic. -/
def Attribute.assertMap : Attribute → Option (List (String × Value))
  | .map entries => some entries
  | .set _ => none

/-! ## The declared attributes (lines 23-60) -/

/-- The nested `definition` block. -/
structure DefinitionBlock where
  initial_state_name : String
  states : List Item
  deriving DecidableEq, Repr

/-- The attributes of the resource as the schema types them; an attribute that
is not set holds the zero value of its type. -/
structure ResourceConfig where
  name : String
  definition : DefinitionBlock
  description : String
  key : String
  role_arn : String
  deriving DecidableEq, Repr

/-- The schema's `validation.StringLenBetween(min, max)`: the length in bytes
lies between the two bounds, both included. -/
def stringLenBetween (min max : Nat) (s : String) : Bool :=
  decide (min ≤ s.utf8ByteSize) && decide (s.utf8ByteSize ≤ max)

/-- The `MinItems` of the `states` list (line 42). -/
def statesMinItems : Nat := 1

/-- The constraints the schema declares on the attributes (lines 24-59): the
length bounds of `name` and `initial_state_name`, the `MinItems` of `states`
and the validation of `role_arn`.  `validateArn` is defined elsewhere in the
provider and is a parameter. -/
def schemaAccepts (validateArn : String → Bool) (c : ResourceConfig) : Bool :=
  stringLenBetween 1 128 c.name
    && stringLenBetween 1 200 c.definition.initial_state_name
    && decide (statesMinItems ≤ c.definition.states.length)
    && validateArn c.role_arn

/-! ## Resource data -/

/-- The part of `*schema.ResourceData` the operations touch: the attributes
read by `d.Get` and `d.GetOk`, and the identity read by `d.Id` and written by
`d.SetId`. -/
structure ResourceData where
  config : ResourceConfig
  id : String
  deriving DecidableEq, Repr

/-- The call `d.SetId(v)`. -/
def ResourceData.SetId (d : ResourceData) (v : String) : ResourceData :=
  { d with id := v }

/-- The call `d.Get("definition")`.  The schema declares the attribute
`schema.TypeSet` with a resource as its element (lines 30-46), so the value is
the set that holds the configured block. -/
def ResourceData.GetDefinition (d : ResourceData) : Attribute :=
  Attribute.set
    [[("initial_state_name", Value.str d.config.definition.initial_state_name),
      ("states", Value.list d.config.definition.states)]]

/-- The call `d.GetOk(key)` on a string attribute: the value, and whether it is
set to something other than the zero value. -/
def GetOk (v : String) : Option String :=
  if v = "" then none else some v

/-! ## The remote API -/

/-- An error value returned by the remote client: the service's not-found
answer, or any other failure (its code and message). -/
inductive AwsError where
  | notFound (message : String)
  | other (code : String) (message : String)
  deriving DecidableEq, Repr

/-- Whether the error is the service's not-found answer. -/
def AwsError.isNotFound : AwsError → Bool
  | .notFound _ => true
  | .other _ _ => false

/-- The record `iotevents.DetectorModelDefinition`. -/
structure DetectorModelDefinition where
  InitialStateName : String
  States : List String
  deriving DecidableEq, Repr

/-- The record `iotevents.CreateDetectorModelInput`; a field left unset is
`none`. -/
structure CreateDetectorModelInput where
  DetectorModelName : String
  DetectorModelDefinition : DetectorModelDefinition
  RoleArn : String
  DetectorModelDescription : Option String
  Key : Option String
  deriving DecidableEq, Repr

/-- The record `iotevents.DescribeDetectorModelInput`. -/
structure DescribeDetectorModelInput where
  DetectorModelName : String
  deriving DecidableEq, Repr

/-- The record `iotevents.UpdateDetectorModelInput`. -/
structure UpdateDetectorModelInput where
  DetectorModelName : String
  DetectorModelDefinition : DetectorModelDefinition
  RoleArn : String
  DetectorModelDescription : Option String
  deriving DecidableEq, Repr

/-- The record `iotevents.DeleteDetectorModelInput`. -/
structure DeleteDetectorModelInput where
  DetectorModelName : String
  deriving DecidableEq, Repr

/-- What a describe call reports about a detector model. -/
structure DescribeDetectorModelOutput where
  DetectorModelName : String
  DetectorModelDefinition : DetectorModelDefinition
  RoleArn : String
  DetectorModelDescription : Option String
  Key : Option String
  deriving DecidableEq, Repr

/-- The pair `(out, err)` of a describe call. -/
inductive DescribeResult where
  | ok (out : DescribeDetectorModelOutput)
  | error (err : AwsError)
  deriving DecidableEq, Repr

/-- The remote client: each operation takes the remote state and a request and
gives the next remote state and its answer.  The outputs of create, update and
delete are dropped by the callers (`_, err :=`), so only the error is kept. -/
structure Client (σ : Type) where
  CreateDetectorModel : σ → CreateDetectorModelInput → σ × Option AwsError
  DescribeDetectorModel : σ → DescribeDetectorModelInput → σ × DescribeResult
  UpdateDetectorModel : σ → UpdateDetectorModelInput → σ × Option AwsError
  DeleteDetectorModel : σ → DeleteDetectorModelInput → σ × Option AwsError

/-- One call on the remote client: the request and the answer. -/
inductive Call where
  | CreateDetectorModel (params : CreateDetectorModelInput) (err : Option AwsError)
  | DescribeDetectorModel (params : DescribeDetectorModelInput) (res : DescribeResult)
  | UpdateDetectorModel (params : UpdateDetectorModelInput) (err : Option AwsError)
  | DeleteDetectorModel (params : DeleteDetectorModelInput) (err : Option AwsError)
  deriving DecidableEq, Repr

/-- The remote state together with the calls made so far, oldest first. -/
structure World (σ : Type) where
  remote : σ
  calls : List Call

/-- How an operation ends: it returns its `error` value (`none` is `nil`), or a
type assertion fails and it panics. -/
inductive Outcome where
  | returned (err : Option AwsError)
  | panicked
  deriving DecidableEq, Repr

/-- What an operation leaves behind. -/
structure Result (σ : Type) where
  d : ResourceData
  world : World σ
  outcome : Outcome

/-! ## The operations -/

/-- Lines 104-118.  One describe call for `d.Id()`; its error is returned, its
output `out` is not used. -/
def resourceAwsIotDetectorRead {σ : Type} (conn : Client σ) (d : ResourceData)
    (w : World σ) : Result σ :=
  let params : DescribeDetectorModelInput := { DetectorModelName := d.id }
  let answer := conn.DescribeDetectorModel w.remote params
  let w1 : World σ :=
    { remote := answer.1, calls := w.calls ++ [Call.DescribeDetectorModel params answer.2] }
  match answer.2 with
  | DescribeResult.error err => { d := d, world := w1, outcome := Outcome.returned (some err) }
  | DescribeResult.ok _ => { d := d, world := w1, outcome := Outcome.returned none }

/-- Lines 67-90: the request create sends.  `none` is a failed type assertion:
the one of line 68, on the value `d.Get("definition")` returns, or one of
lines 72-73, on the entries of the map.  `expandStringList` is defined
elsewhere in the provider and is a parameter. -/
def createParams (expandStringList : List Item → List String) (d : ResourceData) :
    Option CreateDetectorModelInput :=
  let detectorName := d.config.name
  match d.GetDefinition.assertMap with
  | none => none
  | some detectorDefinition =>
    match (mapIndex detectorDefinition "initial_state_name").assertString,
          (mapIndex detectorDefinition "states").assertInterfaceList with
    | some initialStateName, some states =>
      let detectorDefinitionParams : DetectorModelDefinition :=
        { InitialStateName := initialStateName, States := expandStringList states }
      let roleArn := d.config.role_arn
      some { DetectorModelName := detectorName
             DetectorModelDefinition := detectorDefinitionParams
             RoleArn := roleArn
             DetectorModelDescription := GetOk d.config.description
             Key := GetOk d.config.key }
    | _, _ => none

/-- Lines 64-102.  A failed assertion ends the operation before the create
call: nothing is sent and `d.SetId` (line 99) is not reached. -/
def resourceAwsIotDetectorCreate {σ : Type} (expandStringList : List Item → List String)
    (conn : Client σ) (d : ResourceData) (w : World σ) : Result σ :=
  match createParams expandStringList d with
  | none => { d := d, world := w, outcome := Outcome.panicked }
  | some params =>
    let answer := conn.CreateDetectorModel w.remote params
    let w1 : World σ :=
      { remote := answer.1, calls := w.calls ++ [Call.CreateDetectorModel params answer.2] }
    match answer.2 with
    | some err => { d := d, world := w1, outcome := Outcome.returned (some err) }
    | none => resourceAwsIotDetectorRead conn (d.SetId d.config.name) w1

/-- Lines 123-140: the request update sends.  `none` is a failed type
assertion: the one of line 124, on the value `d.Get("definition")` returns, or
one of lines 127-128.  Line 128 takes `States` from the `initial_state_name`
entry asserted to be a `[]string`, where line 73 takes it from the `states`
entry. -/
def updateParams (d : ResourceData) : Option UpdateDetectorModelInput :=
  let detectorName := d.config.name
  match d.GetDefinition.assertMap with
  | none => none
  | some detectorDefinition =>
    match (mapIndex detectorDefinition "initial_state_name").assertString,
          (mapIndex detectorDefinition "initial_state_name").assertStringList with
    | some initialStateName, some states =>
      let detectorDefinitionParams : DetectorModelDefinition :=
        { InitialStateName := initialStateName, States := states }
      let roleArn := d.config.role_arn
      some { DetectorModelName := detectorName
             DetectorModelDefinition := detectorDefinitionParams
             RoleArn := roleArn
             DetectorModelDescription := GetOk d.config.description }
    | _, _ => none

/-- Lines 120-150. -/
def resourceAwsIotDetectorUpdate {σ : Type} (conn : Client σ) (d : ResourceData)
    (w : World σ) : Result σ :=
  match updateParams d with
  | none => { d := d, world := w, outcome := Outcome.panicked }
  | some params =>
    let answer := conn.UpdateDetectorModel w.remote params
    let w1 : World σ :=
      { remote := answer.1, calls := w.calls ++ [Call.UpdateDetectorModel params answer.2] }
    match answer.2 with
    | some err => { d := d, world := w1, outcome := Outcome.returned (some err) }
    | none => resourceAwsIotDetectorRead conn d w1

/-- Lines 152-162. -/
def resourceAwsIotDetectorDelete {σ : Type} (conn : Client σ) (d : ResourceData)
    (w : World σ) : Result σ :=
  let params : DeleteDetectorModelInput := { DetectorModelName := d.id }
  let answer := conn.DeleteDetectorModel w.remote params
  { d := d
    world := { remote := answer.1, calls := w.calls ++ [Call.DeleteDetectorModel params answer.2] }
    outcome := Outcome.returned answer.2 }

/-- Modelled from the spec: the body of `expandStringList` lives elsewhere in
the provider and is absent from the sources; the spec only calls it the
encoding of the configured states.  The operations above take the encoder as a
parameter; this instance (the string elements, in order, the empty string and
elements that are not strings left out) serves to evaluate them on concrete
inputs. -/
def expandStringList (configured : List Item) : List String :=
  configured.filterMap fun v =>
    match v with
    | Item.str val => if val = "" then none else some val
    | Item.block _ => none

/-! ## Import -/

/-- How an import ends. -/
inductive ImportOutcome where
  | imported
  | importError (cause : AwsError)
  | failed (err : AwsError)
  | crashed
  deriving DecidableEq, Repr

/-- What an import leaves behind: the adopted resource (`none` when the
resource stays absent), the world and the way the import ended. -/
structure ImportResult (σ : Type) where
  resource : Option ResourceData
  world : World σ
  outcome : ImportOutcome

/-- The resource data an import starts from: no attribute set, no identity. -/
def blankResourceData : ResourceData :=
  { config :=
      { name := "", definition := { initial_state_name := "", states := [] },
        description := "", key := "", role_arn := "" }
    id := "" }

/-- Modelled from the spec: the import driver is the framework's (line 20 only
names its `ImportStatePassthrough`); its body is absent from the sources.  It
sets the identity to the supplied one and immediately performs the read; on
success the resource is present; on not-found the import fails with an import
error and the resource is absent again; any other failure is handed on as it
is, the resource staying absent. -/
def importResource {σ : Type} (conn : Client σ) (identity : String) (w : World σ) :
    ImportResult σ :=
  let r := resourceAwsIotDetectorRead conn (blankResourceData.SetId identity) w
  match r.outcome with
  | Outcome.returned none =>
    { resource := some r.d, world := r.world, outcome := ImportOutcome.imported }
  | Outcome.returned (some err) =>
    if err.isNotFound then
      { resource := none, world := r.world, outcome := ImportOutcome.importError err }
    else
      { resource := none, world := r.world, outcome := ImportOutcome.failed err }
  | Outcome.panicked =>
    { resource := none, world := r.world, outcome := ImportOutcome.crashed }

/-! ## What a caller can tell apart -/

/-- The kinds of ending a caller tells apart without looking into the error
value: success, the resource reported missing (`nil` returned with the identity
cleared), an error returned, a crash. -/
inductive Signal where
  | ok
  | missing
  | failed
  | crashed
  deriving DecidableEq, Repr

/-- The kind of ending of a result. -/
def Result.signal {σ : Type} (r : Result σ) : Signal :=
  match r.outcome with
  | Outcome.panicked => Signal.crashed
  | Outcome.returned (some _) => Signal.failed
  | Outcome.returned none => if r.d.id = "" then Signal.missing else Signal.ok

/-- The calls an operation added to the ones made before it. -/
def newCalls {σ : Type} (before : World σ) (r : Result σ) : List Call :=
  r.world.calls.drop before.calls.length

/-! ## Remote clients used on concrete inputs -/

/-- What a remote that keeps detector models reports for a stored one. -/
def storedOutput (m : CreateDetectorModelInput) : DescribeDetectorModelOutput :=
  { DetectorModelName := m.DetectorModelName
    DetectorModelDefinition := m.DetectorModelDefinition
    RoleArn := m.RoleArn
    DetectorModelDescription := m.DetectorModelDescription
    Key := m.Key }

/-- A remote that stores what create receives (newest first) and returns it
from describe; update and delete act on the stored models of that name. -/
def storingClient : Client (List CreateDetectorModelInput) where
  CreateDetectorModel s params := (params :: s, none)
  DescribeDetectorModel s params :=
    match s.find? (fun m => m.DetectorModelName == params.DetectorModelName) with
    | some m => (s, DescribeResult.ok (storedOutput m))
    | none => (s, DescribeResult.error (AwsError.notFound params.DetectorModelName))
  UpdateDetectorModel s params :=
    if s.any (fun m => m.DetectorModelName == params.DetectorModelName) then
      (s.map (fun m =>
          if m.DetectorModelName == params.DetectorModelName then
            { m with DetectorModelDefinition := params.DetectorModelDefinition, RoleArn := params.RoleArn,
                     DetectorModelDescription := params.DetectorModelDescription }
          else m), none)
    else (s, some (AwsError.notFound params.DetectorModelName))
  DeleteDetectorModel s params :=
    if s.any (fun m => m.DetectorModelName == params.DetectorModelName) then
      (s.filter (fun m => !(m.DetectorModelName == params.DetectorModelName)), none)
    else (s, some (AwsError.notFound params.DetectorModelName))

/-- A remote without state that gives the same answers to every request. -/
def fixedClient (createErr : Option AwsError) (described : DescribeResult)
    (updateErr deleteErr : Option AwsError) : Client Unit where
  CreateDetectorModel _ _ := ((), createErr)
  DescribeDetectorModel _ _ := ((), described)
  UpdateDetectorModel _ _ := ((), updateErr)
  DeleteDetectorModel _ _ := ((), deleteErr)

/-- The configuration of the spec's scenario. -/
def exampleConfig : ResourceConfig :=
  { name := "detector-a"
    definition :=
      { initial_state_name := "start"
        states := [Item.str "start", Item.str "running", Item.str "done"] }
    description := ""
    key := ""
    role_arn := "arn:aws:iam::123456789012:role/x" }

/-- The same configuration with an empty `states` list. -/
def emptyStatesConfig : ResourceConfig :=
  { exampleConfig with definition := { initial_state_name := "start", states := [] } }

/-- The same configuration with an empty `initial_state_name`. -/
def emptyInitialStateConfig : ResourceConfig :=
  { exampleConfig with
    definition := { initial_state_name := "", states := [Item.str "start"] } }

/-- Resource data of a resource that is not created yet. -/
def freshData (c : ResourceConfig) : ResourceData :=
  { config := c, id := "" }

/-- A world in which no call has been made. -/
def startWorld {σ : Type} (s : σ) : World σ :=
  { remote := s, calls := [] }

/-- What the storing remote reports for the scenario's detector model. -/
def exampleOutput : DescribeDetectorModelOutput :=
  { DetectorModelName := "detector-a"
    DetectorModelDefinition := { InitialStateName := "start", States := ["start", "running", "done"] }
    RoleArn := "arn:aws:iam::123456789012:role/x"
    DetectorModelDescription := none
    Key := none }

/-- A failure of the remote that is not a not-found answer. -/
def throttled : AwsError :=
  AwsError.other "ThrottlingException" "rate exceeded"

/-- The remote's not-found answer. -/
def gone : AwsError :=
  AwsError.notFound "detector model not found"

/-- Resource data of the scenario's resource once it is created. -/
def createdData (c : ResourceConfig) : ResourceData :=
  (freshData c).SetId c.name

/-- The scenario: create against the storing remote, nothing stored before. -/
def scenarioCreate : Result (List CreateDetectorModelInput) :=
  resourceAwsIotDetectorCreate expandStringList storingClient (freshData exampleConfig)
    (startWorld [])

/-- The scenario, continued: read with the resource data create left. -/
def scenarioRead : Result (List CreateDetectorModelInput) :=
  resourceAwsIotDetectorRead storingClient scenarioCreate.d scenarioCreate.world

/-- Create against a remote whose create and describe calls both succeed. -/
def acceptedCreate : Result Unit :=
  resourceAwsIotDetectorCreate expandStringList
    (fixedClient none (DescribeResult.ok exampleOutput) none none)
    (freshData exampleConfig) (startWorld ())

/-- Create against a remote whose create call fails. -/
def refusedCreate : Result Unit :=
  resourceAwsIotDetectorCreate expandStringList
    (fixedClient (some throttled) (DescribeResult.ok exampleOutput) none none)
    (freshData exampleConfig) (startWorld ())

/-- Create against a remote whose create call succeeds and whose describe call
fails. -/
def unconfirmedCreate : Result Unit :=
  resourceAwsIotDetectorCreate expandStringList
    (fixedClient none (DescribeResult.error throttled) none none)
    (freshData exampleConfig) (startWorld ())

/-- Create with an empty `states` list against the storing remote. -/
def emptyStatesCreate : Result (List CreateDetectorModelInput) :=
  resourceAwsIotDetectorCreate expandStringList storingClient (freshData emptyStatesConfig)
    (startWorld [])

/-- The remote state once the scenario's detector model is stored. -/
def exampleStore : List CreateDetectorModelInput :=
  [{ DetectorModelName := "detector-a"
     DetectorModelDefinition :=
       { InitialStateName := "start", States := ["start", "running", "done"] }
     RoleArn := "arn:aws:iam::123456789012:role/x"
     DetectorModelDescription := none
     Key := none }]

/-- Update of the stored scenario resource, its configuration unchanged. -/
def scenarioUpdate : Result (List CreateDetectorModelInput) :=
  resourceAwsIotDetectorUpdate storingClient (createdData exampleConfig) (startWorld exampleStore)

/-- Update of the stored scenario resource to an empty `states` list. -/
def emptyStatesUpdate : Result (List CreateDetectorModelInput) :=
  resourceAwsIotDetectorUpdate storingClient (createdData emptyStatesConfig)
    (startWorld exampleStore)

/-- Delete of an identity the remote reports as not found. -/
def ghostDelete : Result Unit :=
  resourceAwsIotDetectorDelete (fixedClient none (DescribeResult.error gone) none (some gone))
    ((freshData exampleConfig).SetId "ghost-resource") (startWorld ())

/-- Read of an identity the remote reports as not found. -/
def readGone : Result Unit :=
  resourceAwsIotDetectorRead (fixedClient none (DescribeResult.error gone) none none)
    (createdData exampleConfig) (startWorld ())

/-- Read while the remote fails for another reason. -/
def readThrottled : Result Unit :=
  resourceAwsIotDetectorRead (fixedClient none (DescribeResult.error throttled) none none)
    (createdData exampleConfig) (startWorld ())

/-! ## The requests the operations build -/

/-- The assertion of lines 68 and 124 fails on every resource data: the value
is a set, not a map. -/
theorem getDefinition_assertMap (d : ResourceData) : d.GetDefinition.assertMap = none := by
  simp [ResourceData.GetDefinition, Attribute.assertMap]

/-- Create's request is never built. -/
theorem createParams_eq_none (expand : List Item → List String) (d : ResourceData) :
    createParams expand d = none := by
  simp [createParams, getDefinition_assertMap]

/-- Create panics on every input, before any remote call and before the
identity is set. -/
theorem create_panics {σ : Type} (expand : List Item → List String) (conn : Client σ)
    (d : ResourceData) (w : World σ) :
    resourceAwsIotDetectorCreate expand conn d w
      = { d := d, world := w, outcome := Outcome.panicked } := by
  simp [resourceAwsIotDetectorCreate, createParams_eq_none]

/-- A value that passes `.(string)` fails `.([]string)`: lines 127 and 128
assert both of the same map entry. -/
theorem assertStringList_of_assertString (v : Value) (s : String)
    (h : v.assertString = some s) : v.assertStringList = none := by
  cases v <;> simp_all [Value.assertString, Value.assertStringList]

/-- Update's request is never built. -/
theorem updateParams_eq_none (d : ResourceData) : updateParams d = none := by
  simp [updateParams, getDefinition_assertMap]

/-- Update panics on every input, before any remote call. -/
theorem update_panics {σ : Type} (conn : Client σ) (d : ResourceData) (w : World σ) :
    resourceAwsIotDetectorUpdate conn d w = { d := d, world := w, outcome := Outcome.panicked } := by
  simp [resourceAwsIotDetectorUpdate, updateParams_eq_none]

/-- Read in closed form: one describe call, the resource data untouched. -/
theorem read_eq {σ : Type} (conn : Client σ) (d : ResourceData) (w : World σ) :
    resourceAwsIotDetectorRead conn d w =
      { d := d
        world :=
          { remote := (conn.DescribeDetectorModel w.remote ⟨d.id⟩).1
            calls := w.calls ++
              [Call.DescribeDetectorModel ⟨d.id⟩ (conn.DescribeDetectorModel w.remote ⟨d.id⟩).2] }
        outcome :=
          match (conn.DescribeDetectorModel w.remote ⟨d.id⟩).2 with
          | DescribeResult.error err => Outcome.returned (some err)
          | DescribeResult.ok _ => Outcome.returned none } := by
  unfold resourceAwsIotDetectorRead
  cases h : (conn.DescribeDetectorModel w.remote ⟨d.id⟩).2 <;> simp [h]

/-! ## Create -/

/-- C1: against a remote whose create and describe calls both succeed, create
does not return `nil` with the identity set to the configured name: the
assertion of line 68 fails on the set that `d.Get` returns for `definition`
(declared `TypeSet`, line 31), create panics, no remote call is made and the
identity stays unset. -/
theorem create_panics_with_accepting_remote :
    acceptedCreate.outcome = Outcome.panicked
      ∧ acceptedCreate.outcome ≠ Outcome.returned none
      ∧ acceptedCreate.d.id = ""
      ∧ acceptedCreate.d.id ≠ exampleConfig.name
      ∧ newCalls (startWorld ()) acceptedCreate = [] := by
  decide

/-- C4: against a remote whose create call fails, create does not return that
error: it panics at line 68 before the call, so the create call is made zero
times, not once; the identity stays unset. -/
theorem create_panics_before_refusing_remote :
    refusedCreate.outcome = Outcome.panicked
      ∧ refusedCreate.outcome ≠ Outcome.returned (some throttled)
      ∧ refusedCreate.d.id = ""
      ∧ newCalls (startWorld ()) refusedCreate = [] := by
  decide

/-- C5: against a remote whose create call succeeds and whose describe call
fails, create does not return the describe error and does not set the
identity: it panics at line 68, before either call and before line 99. -/
theorem create_panics_before_confirmation :
    unconfirmedCreate.outcome = Outcome.panicked
      ∧ unconfirmedCreate.outcome ≠ Outcome.returned (some throttled)
      ∧ unconfirmedCreate.d.id = ""
      ∧ unconfirmedCreate.d.id ≠ exampleConfig.name
      ∧ newCalls (startWorld ()) unconfirmedCreate = [] := by
  decide

/-- C2, counterexample: create with an empty `states` list does not fail with
a validation error: it returns no error at all, it panics at line 68. -/
theorem create_empty_states_returns_no_error :
    emptyStatesConfig.definition.states = []
      ∧ emptyStatesCreate.outcome = Outcome.panicked
      ∧ ¬ ∃ e, emptyStatesCreate.outcome = Outcome.returned (some e) := by
  refine ⟨by decide, by decide, ?_⟩
  rintro ⟨e, he⟩
  have hp : emptyStatesCreate.outcome = Outcome.panicked := by decide
  rw [hp] at he
  cases he

/-- C2, amended: validation of `states` is the schema's: every configuration
whose `states` list is empty is rejected by the schema (`MinItems: 1`, line
42), whatever its other attributes and whatever `validateArn` accepts. -/
theorem empty_states_rejected_by_schema (validateArn : String → Bool) (c : ResourceConfig)
    (hempty : c.definition.states = []) :
    schemaAccepts validateArn c = false := by
  simp [schemaAccepts, hempty, statesMinItems]

theorem empty_states_rejected_by_schema_witness :
    emptyStatesConfig.definition.states = []
      ∧ schemaAccepts (fun _ => true) emptyStatesConfig = false :=
  ⟨rfl, empty_states_rejected_by_schema (fun _ => true) emptyStatesConfig rfl⟩

/-! ## Delete -/

/-- C3, counterexample: the remote answers the delete call with a not-found
error, and delete returns that error instead of `nil`. -/
theorem delete_not_found_is_returned :
    gone.isNotFound = true
      ∧ ghostDelete.outcome = Outcome.returned (some gone)
      ∧ ghostDelete.outcome ≠ Outcome.returned none := by
  decide

/-- C3, amended: delete makes one delete call for the identity and returns
what that call returns, unchanged: `nil` when the call succeeds and the error
itself, a not-found error included, when it fails; the resource data is left
as it was. -/
theorem delete_returns_remote_answer {σ : Type} (conn : Client σ) (d : ResourceData)
    (w : World σ) :
    (resourceAwsIotDetectorDelete conn d w).outcome
        = Outcome.returned (conn.DeleteDetectorModel w.remote ⟨d.id⟩).2
      ∧ (resourceAwsIotDetectorDelete conn d w).d = d
      ∧ newCalls w (resourceAwsIotDetectorDelete conn d w)
          = [Call.DeleteDetectorModel ⟨d.id⟩ (conn.DeleteDetectorModel w.remote ⟨d.id⟩).2] := by
  simp [resourceAwsIotDetectorDelete, newCalls]

/-! ## Read -/

/-- C7, counterexample: read ends the same way, an error returned and the
resource data untouched, whether the describe call reports not-found or fails
for another reason; the not-found case carries no signal of its own. -/
theorem read_not_found_same_as_other_error :
    gone.isNotFound = true ∧ throttled.isNotFound = false
      ∧ readGone.signal = Signal.failed
      ∧ readThrottled.signal = Signal.failed
      ∧ readGone.signal = readThrottled.signal
      ∧ readGone.d = readThrottled.d
      ∧ readGone.d.id = "detector-a" := by
  decide

/-- C7, amended: whatever error the describe call returns, not-found or
other, read returns that same error and leaves the resource data, its identity
included, as it was; the two cases differ in the returned error value only. -/
theorem read_returns_describe_error {σ : Type} (conn : Client σ) (d : ResourceData)
    (w : World σ) (e : AwsError)
    (hdescribe : (conn.DescribeDetectorModel w.remote ⟨d.id⟩).2 = DescribeResult.error e) :
    (resourceAwsIotDetectorRead conn d w).outcome = Outcome.returned (some e)
      ∧ (resourceAwsIotDetectorRead conn d w).d = d
      ∧ (resourceAwsIotDetectorRead conn d w).signal = Signal.failed := by
  simp [read_eq, hdescribe, Result.signal]

theorem read_returns_describe_error_witness :
    readGone.outcome = Outcome.returned (some gone)
      ∧ readGone.d = createdData exampleConfig
      ∧ readGone.signal = Signal.failed :=
  read_returns_describe_error (fixedClient none (DescribeResult.error gone) none none)
    (createdData exampleConfig) (startWorld ()) gone rfl

/-! ## Update -/

/-- C6: on the scenario's configuration neither path places the encoding of
the configured `states` in a request: create builds no request (line 68) and
update builds none either (line 124), panics and makes no remote call, so the
update request carries no `states` at all. -/
theorem update_places_no_states :
    (createParams expandStringList (createdData exampleConfig)).map
        (fun params => params.DetectorModelDefinition.States) = none
      ∧ (updateParams (createdData exampleConfig)).map
        (fun params => params.DetectorModelDefinition.States) = none
      ∧ (updateParams (createdData exampleConfig)).map
        (fun params => params.DetectorModelDefinition.States)
          ≠ some (expandStringList exampleConfig.definition.states)
      ∧ expandStringList exampleConfig.definition.states = ["start", "running", "done"]
      ∧ scenarioUpdate.outcome = Outcome.panicked
      ∧ newCalls (startWorld exampleStore) scenarioUpdate = [] := by
  decide

/-- C8, counterexample: update on a configuration with an empty `states` list
does not return an error: it panics at line 124. -/
theorem update_malformed_returns_no_error :
    emptyStatesConfig.definition.states = []
      ∧ emptyStatesUpdate.outcome = Outcome.panicked
      ∧ ¬ ∃ e, emptyStatesUpdate.outcome = Outcome.returned (some e) := by
  refine ⟨by decide, by decide, ?_⟩
  rintro ⟨e, he⟩
  have hp : emptyStatesUpdate.outcome = Outcome.panicked := by decide
  rw [hp] at he
  cases he

/-- C8, amended: validation of the definition is the schema's: every
configuration whose definition is malformed (empty `states`, or empty
`initial_state_name`) is rejected by the schema (`MinItems: 1`, line 42;
`StringLenBetween(1, 200)`, line 38), whatever its other attributes and
whatever `validateArn` accepts. -/
theorem malformed_definition_rejected_by_schema (validateArn : String → Bool)
    (c : ResourceConfig)
    (hmalformed : c.definition.states = [] ∨ c.definition.initial_state_name = "") :
    schemaAccepts validateArn c = false := by
  rcases hmalformed with h | h
  · simp [schemaAccepts, h, statesMinItems]
  · have h0 : stringLenBetween 1 200 "" = false := by decide
    simp [schemaAccepts, h, h0]

theorem malformed_definition_rejected_by_schema_witness :
    (emptyInitialStateConfig.definition.states = []
        ∨ emptyInitialStateConfig.definition.initial_state_name = "")
      ∧ schemaAccepts (fun _ => true) emptyInitialStateConfig = false :=
  ⟨Or.inr rfl,
    malformed_definition_rejected_by_schema (fun _ => true) emptyInitialStateConfig
      (Or.inr rfl)⟩

/-! ## Create followed by read -/

/-- C9: on the scenario's configuration against the storing remote, create
panics at line 68: nothing is stored and no identity is set; the read that
follows on the resource data create left asks for the empty identity and
returns the remote's not-found error, so no observed model with the submitted
`initial_state_name` and `states` comes back. -/
theorem create_then_read_observes_nothing :
    scenarioCreate.outcome = Outcome.panicked
      ∧ scenarioCreate.world.remote = []
      ∧ scenarioCreate.d.id = ""
      ∧ scenarioRead.outcome = Outcome.returned (some (AwsError.notFound ""))
      ∧ newCalls scenarioCreate.world scenarioRead
          = [Call.DescribeDetectorModel ⟨""⟩ (DescribeResult.error (AwsError.notFound ""))] := by
  decide

/-! ## Import -/

/-- C10: when the describe call for the supplied identity reports not-found,
the import fails with an import error and the resource stays absent: no
resource data, hence no identity, is left. -/
theorem import_absent_identity_fails {σ : Type} (conn : Client σ) (identity : String)
    (w : World σ) (e : AwsError) (hnotFound : e.isNotFound = true)
    (hdescribe : (conn.DescribeDetectorModel w.remote ⟨identity⟩).2 = DescribeResult.error e) :
    (importResource conn identity w).outcome = ImportOutcome.importError e
      ∧ (importResource conn identity w).resource = none := by
  have hid : (blankResourceData.SetId identity).id = identity := rfl
  simp [importResource, read_eq, hid, hdescribe, hnotFound]

theorem import_absent_identity_fails_witness :
    (storingClient.DescribeDetectorModel [] ⟨"ghost-resource"⟩).2
        = DescribeResult.error (AwsError.notFound "ghost-resource")
      ∧ (importResource storingClient "ghost-resource" (startWorld [])).outcome
        = ImportOutcome.importError (AwsError.notFound "ghost-resource")
      ∧ (importResource storingClient "ghost-resource" (startWorld [])).resource = none :=
  ⟨rfl, import_absent_identity_fails storingClient "ghost-resource" (startWorld [])
    (AwsError.notFound "ghost-resource") rfl rfl⟩

end IotEventsDetectorModel
